import Mathlib

/-!
The v3xctrl Android viewer: the GStreamer JNI bridge (`gst_viewer.c`).

A shallow embedding of `android/app/src/main/jni/gst_viewer.c`.

* Pointers are natural numbers, `NULL` is `0`.
* The global `gst_data` is threaded through every entry point explicitly.
* Every call into Android, GLib or GStreamer is recorded, with its arguments,
  in a trace of `Action`s, in program order.
* What the outside world answers to a call (the window obtained from a surface,
  the parsed pipeline, ...) is read from an `Outcomes` record that is an
  argument of the entry point, so that every theorem quantifies over all the
  answers the framework can give.
-/

namespace GstViewer

/-! ## Formatted output -/

/-- An argument of a `printf`-style call: `%d` takes an `int`, `%s` a string. -/
inductive FmtArg where
  | int (i : Int)
  | str (s : String)
  deriving DecidableEq, Repr

/-- Decimal numeral of a signed integer, as `%d` prints it: a minus sign for a
negative number, then the digits of the magnitude. -/
def decimal (i : Int) : String :=
  if i < 0 then "-" ++ Nat.repr i.natAbs else Nat.repr i.natAbs

/-- Expansion of a format string, character by character; `pct` says that the
character before was an unconsumed `%`. `%d` and `%s` consume the next
argument; every other character is copied. -/
def format (pct : Bool) : List Char → List FmtArg → List Char
  | [], _ => if pct then ['%'] else []
  | c :: tl, args =>
    if pct then
      if c = 'd' then
        match args with
        | FmtArg.int i :: more => (decimal i).data ++ format false tl more
        | _ => format false tl args
      else if c = 's' then
        match args with
        | FmtArg.str s :: more => s.data ++ format false tl more
        | _ => format false tl args
      else '%' :: c :: format false tl args
    else if c = '%' then format true tl args
    else c :: format false tl args

/-- The string `g_strdup_printf (fmt, args...)` returns. -/
def g_strdup_printf (fmt : String) (args : List FmtArg) : String :=
  String.mk (format false fmt.data args)

/-- The description string `nativeStartPipeline` builds from `port`
(lines 104-123): the test source for port 0, the RTP receiver otherwise. -/
def pipeline_str (port : Int) : String :=
  if port = 0 then
    "videotestsrc pattern=smpte ! " ++
    "videoconvert ! " ++
    "glimagesink name=videosink"
  else
    g_strdup_printf
      ("udpsrc port=%d caps=\"application/x-rtp,media=video,encoding-name=H264,payload=96,clock-rate=90000\" ! " ++
       "rtpjitterbuffer latency=0 drop-on-latency=true ! " ++
       "rtph264depay ! " ++
       "h264parse ! " ++
       "avdec_h264 ! " ++
       "videoconvert ! " ++
       "glimagesink name=videosink sync=false")
      [FmtArg.int port]


/-! ## Data model -/

/-- The global record `GstViewerData` (lines 14-21). The four handles are
pointers: `0` is `NULL`. -/
structure GstViewerData where
  pipeline : Nat
  video_sink : Nat
  main_loop : Nat
  native_window : Nat
  initialized : Bool
  video_port : Int
  deriving DecidableEq, Repr

/-- The value of `static GstViewerData gst_data = {0};` (line 23). -/
def gst_data : GstViewerData :=
  { pipeline := 0, video_sink := 0, main_loop := 0, native_window := 0,
    initialized := false, video_port := 0 }

/-- The states of a GStreamer element. -/
inductive GstState where
  | GST_STATE_VOID_PENDING
  | GST_STATE_NULL
  | GST_STATE_READY
  | GST_STATE_PAUSED
  | GST_STATE_PLAYING
  deriving DecidableEq, Repr

/-- The name GStreamer gives a state (`gst_element_state_get_name`). -/
def gst_element_state_get_name : GstState → String
  | .GST_STATE_VOID_PENDING => "VOID_PENDING"
  | .GST_STATE_NULL => "NULL"
  | .GST_STATE_READY => "READY"
  | .GST_STATE_PAUSED => "PAUSED"
  | .GST_STATE_PLAYING => "PLAYING"

/-- What `gst_element_set_state` returns; the numbering is the one the log
statement of line 163 spells out. -/
inductive GstStateChangeReturn where
  | GST_STATE_CHANGE_FAILURE
  | GST_STATE_CHANGE_SUCCESS
  | GST_STATE_CHANGE_ASYNC
  | GST_STATE_CHANGE_NO_PREROLL
  deriving DecidableEq, Repr

/-- The integer value of a state-change return, printed with `%d` on line 163. -/
def GstStateChangeReturn.toInt : GstStateChangeReturn → Int
  | .GST_STATE_CHANGE_FAILURE => 0
  | .GST_STATE_CHANGE_SUCCESS => 1
  | .GST_STATE_CHANGE_ASYNC => 2
  | .GST_STATE_CHANGE_NO_PREROLL => 3

/-- The three bus callbacks of the file. -/
inductive Callback where
  | on_error
  | on_eos
  | on_state_changed
  deriving DecidableEq, Repr

/-- The priorities of `LOGI`, `LOGE` and `LOGD` (lines 10-12). -/
inductive LogPriority where
  | ANDROID_LOG_INFO
  | ANDROID_LOG_ERROR
  | ANDROID_LOG_DEBUG
  deriving DecidableEq, Repr

/-- What a bus message carries, as the parse functions of the callbacks read it:
the object that posted it, the error text and optional debug text of an error
message, and the three states of a state-changed message. -/
structure GstMessage where
  src : Nat
  err_message : String
  debug_info : Option String
  old_state : GstState
  new_state : GstState
  pending_state : GstState
  deriving DecidableEq, Repr

/-- One call out of the file, with its arguments. -/
inductive Action where
  | log (prio : LogPriority) (text : String)
  | setenv (name value : String) (overwrite : Int)
  | gst_init
  | ANativeWindow_fromSurface (surface : Nat)
  | ANativeWindow_release (window : Nat)
  | gst_parse_launch (description : String)
  | g_free
  | g_error_free
  | g_clear_error
  | gst_bin_get_by_name (bin : Nat) (name : String)
  | gst_video_overlay_set_window_handle (sink : Nat) (handle : Nat)
  | gst_element_get_bus (element : Nat)
  | gst_bus_add_signal_watch (bus : Nat)
  | g_signal_connect (instance_ : Nat) (signal : String) (handler : Callback)
  | gst_object_unref (object : Nat)
  | g_main_loop_new
  | g_main_loop_run (loop : Nat)
  | g_main_loop_quit (loop : Nat)
  | g_main_loop_unref (loop : Nat)
  | gst_element_set_state (element : Nat) (state : GstState)
  | gst_bus_pop_filtered (bus : Nat)
  | gst_message_parse_error
  | gst_message_parse_state_changed
  | gst_message_unref
  | pthread_create_gst_main_loop_thread
  | pthread_detach
  deriving DecidableEq, Repr

/-- `LOGI (fmt, ...)`, line 10. -/
def LOGI (fmt : String) (args : List FmtArg) : Action :=
  Action.log LogPriority.ANDROID_LOG_INFO (g_strdup_printf fmt args)

/-- `LOGE (fmt, ...)`, line 11. -/
def LOGE (fmt : String) (args : List FmtArg) : Action :=
  Action.log LogPriority.ANDROID_LOG_ERROR (g_strdup_printf fmt args)

/-- `LOGD (fmt, ...)`, line 12. -/
def LOGD (fmt : String) (args : List FmtArg) : Action :=
  Action.log LogPriority.ANDROID_LOG_DEBUG (g_strdup_printf fmt args)

/-- The answers of the outside world to the calls of one run of
`nativeStartPipeline`, in the order the calls are made. -/
structure Outcomes where
  /-- result of `ANativeWindow_fromSurface` (line 91) -/
  window : Nat
  /-- result of `gst_parse_launch` (line 126) -/
  parsed : Nat
  /-- the message of the `GError` that `gst_parse_launch` set, if it set one -/
  parse_error : Option String
  /-- result of `gst_bin_get_by_name` (line 142) -/
  sink : Nat
  /-- result of `gst_element_get_bus` (line 151) -/
  bus : Nat
  /-- result of `g_main_loop_new` (line 159) -/
  loop : Nat
  /-- result of `gst_element_set_state` (line 162) -/
  ret : GstStateChangeReturn
  /-- result of `gst_element_get_bus` (line 167) -/
  err_bus : Nat
  /-- result of `gst_bus_pop_filtered` (line 168): error text and debug text -/
  err_msg : Option (String × Option String)
  deriving DecidableEq, Repr

/-! ## Bus callbacks and the loop thread -/

/-- Callback `on_error` (lines 25-36). -/
def on_error (d : GstViewerData) (msg : GstMessage) : GstViewerData × List Action :=
  (d,
    [Action.gst_message_parse_error,
     LOGE "Error: %s" [FmtArg.str msg.err_message]] ++
    (match msg.debug_info with
     | some debug_info => [LOGD "Debug info: %s" [FmtArg.str debug_info]]
     | none => []) ++
    [Action.g_clear_error,
     Action.g_free,
     Action.g_main_loop_quit d.main_loop])

/-- Callback `on_eos` (lines 38-41). -/
def on_eos (d : GstViewerData) (_msg : GstMessage) : GstViewerData × List Action :=
  (d, [LOGI "End of stream" [], Action.g_main_loop_quit d.main_loop])

/-- Callback `on_state_changed` (lines 43-52). -/
def on_state_changed (d : GstViewerData) (msg : GstMessage) : GstViewerData × List Action :=
  (d,
    [Action.gst_message_parse_state_changed] ++
    (if msg.src = d.pipeline then
       [LOGI "Pipeline state changed from %s to %s"
          [FmtArg.str (gst_element_state_get_name msg.old_state),
           FmtArg.str (gst_element_state_get_name msg.new_state)]]
     else []))

/-- The body of the background thread, `gst_main_loop_thread` (lines 54-59). -/
def gst_main_loop_thread (d : GstViewerData) : GstViewerData × List Action :=
  (d,
    [LOGI "Starting GStreamer main loop" [],
     Action.g_main_loop_run d.main_loop,
     LOGI "GStreamer main loop ended" []])

/-! ## The four entry points -/

/-- Entry point `nativeInit` (lines 61-76). -/
def Java_com_v3xctrl_viewer_GstViewer_nativeInit (d : GstViewerData) :
    GstViewerData × List Action :=
  if d.initialized then
    (d, [LOGI "GStreamer already initialized" []])
  else
    ({ d with initialized := true },
      [LOGI "Initializing GStreamer" [],
       Action.setenv "GST_GL_API" "gles2" 1,
       Action.gst_init,
       LOGI "GStreamer initialized successfully" []])

/-- Entry point `nativeStartPipeline` (lines 78-193). `surface` is the handle of
the Java surface, `port` the `jint` port, `o` the answers of the outside. -/
def Java_com_v3xctrl_viewer_GstViewer_nativeStartPipeline (d : GstViewerData)
    (surface : Nat) (port : Int) (o : Outcomes) : GstViewerData × List Action :=
  if d.initialized = false then
    (d, [LOGE "GStreamer not initialized" []])
  else if d.pipeline ≠ 0 then
    (d, [LOGI "Pipeline already running" []])
  else
    -- lines 90-95
    let d1 := { d with native_window := o.window }
    let t1 := [Action.ANativeWindow_fromSurface surface]
    if d1.native_window = 0 then
      (d1, t1 ++ [LOGE "Failed to get native window from surface" []])
    else
      -- lines 97-127
      let d2 := { d1 with video_port := port }
      let str := pipeline_str port
      let d3 := { d2 with pipeline := o.parsed }
      let t3 := t1 ++
        [LOGI "Creating video receiver pipeline on port %d" [FmtArg.int port],
         LOGI "Pipeline: %s" [FmtArg.str str],
         Action.gst_parse_launch str,
         Action.g_free]
      -- lines 129-132
      let t4 := t3 ++
        (match o.parse_error with
         | some message => [LOGE "Pipeline parse error: %s" [FmtArg.str message],
                            Action.g_error_free]
         | none => [])
      -- lines 134-139
      if d3.pipeline = 0 then
        ({ d3 with native_window := 0 },
          t4 ++ [LOGE "Failed to create pipeline" [],
                 Action.ANativeWindow_release d3.native_window])
      else
        -- lines 141-148
        let d4 := { d3 with video_sink := o.sink }
        let t5 := t4 ++ [Action.gst_bin_get_by_name d3.pipeline "videosink"] ++
          (if d4.video_sink ≠ 0 then
             [Action.gst_video_overlay_set_window_handle d4.video_sink d4.native_window]
           else [])
        -- lines 150-156
        let t6 := t5 ++
          [Action.gst_element_get_bus d4.pipeline,
           Action.gst_bus_add_signal_watch o.bus,
           Action.g_signal_connect o.bus "message::error" Callback.on_error,
           Action.g_signal_connect o.bus "message::eos" Callback.on_eos,
           Action.g_signal_connect o.bus "message::state-changed" Callback.on_state_changed,
           Action.gst_object_unref o.bus]
        -- lines 158-163
        let d5 := { d4 with main_loop := o.loop }
        let t7 := t6 ++
          [Action.g_main_loop_new,
           Action.gst_element_set_state d5.pipeline GstState.GST_STATE_PLAYING,
           LOGI "State change returned: %d (0=FAILURE, 1=SUCCESS, 2=ASYNC, 3=NO_PREROLL)"
             [FmtArg.int o.ret.toInt]]
        if o.ret = GstStateChangeReturn.GST_STATE_CHANGE_FAILURE then
          -- lines 164-185
          ({ d5 with pipeline := 0, native_window := 0 },
            t7 ++
            [LOGE "Failed to start pipeline - state change failed" [],
             Action.gst_element_get_bus d5.pipeline,
             Action.gst_bus_pop_filtered o.err_bus] ++
            (match o.err_msg with
             | some (message, debug) =>
               [Action.gst_message_parse_error,
                LOGE "Pipeline error: %s" [FmtArg.str message]] ++
               (match debug with
                | some text => [LOGD "Debug: %s" [FmtArg.str text]]
                | none => []) ++
               [Action.g_error_free, Action.g_free, Action.gst_message_unref]
             | none => []) ++
            [Action.gst_object_unref o.err_bus,
             Action.gst_object_unref d5.pipeline,
             Action.ANativeWindow_release d5.native_window])
        else
          -- lines 187-192
          (d5,
            t7 ++
            [LOGI "Pipeline started successfully, waiting for video on port %d"
               [FmtArg.int port],
             Action.pthread_create_gst_main_loop_thread,
             Action.pthread_detach])

/-- Entry point `nativeStopPipeline` (lines 195-226). -/
def Java_com_v3xctrl_viewer_GstViewer_nativeStopPipeline (d : GstViewerData) :
    GstViewerData × List Action :=
  let t0 := [LOGI "Stopping pipeline" []]
  -- lines 199-201
  let t1 := t0 ++ (if d.main_loop ≠ 0 then [Action.g_main_loop_quit d.main_loop] else [])
  -- lines 203-207
  let d2 := if d.pipeline ≠ 0 then { d with pipeline := 0 } else d
  let t2 := t1 ++
    (if d.pipeline ≠ 0 then
       [Action.gst_element_set_state d.pipeline GstState.GST_STATE_NULL,
        Action.gst_object_unref d.pipeline]
     else [])
  -- lines 209-212
  let d3 := if d2.video_sink ≠ 0 then { d2 with video_sink := 0 } else d2
  let t3 := t2 ++
    (if d2.video_sink ≠ 0 then [Action.gst_object_unref d2.video_sink] else [])
  -- lines 214-217
  let d4 := if d3.main_loop ≠ 0 then { d3 with main_loop := 0 } else d3
  let t4 := t3 ++
    (if d3.main_loop ≠ 0 then [Action.g_main_loop_unref d3.main_loop] else [])
  -- lines 219-222
  let d5 := if d4.native_window ≠ 0 then { d4 with native_window := 0 } else d4
  let t5 := t4 ++
    (if d4.native_window ≠ 0 then [Action.ANativeWindow_release d4.native_window] else [])
  -- lines 224-225
  ({ d5 with video_port := 0 }, t5 ++ [LOGI "Pipeline stopped" []])

/-- Entry point `nativeFinalize` (lines 228-233). -/
def Java_com_v3xctrl_viewer_GstViewer_nativeFinalize (d : GstViewerData) :
    GstViewerData × List Action :=
  let r := Java_com_v3xctrl_viewer_GstViewer_nativeStopPipeline d
  ({ r.1 with initialized := false }, r.2 ++ [LOGI "GStreamer finalized" []])

/-! ## Sequences of calls from the managed side -/

/-- One call of an entry point by the application. -/
inductive Call where
  | init
  | start (surface : Nat) (port : Int) (o : Outcomes)
  | stop
  | finalize
  deriving DecidableEq, Repr

/-- The effect of one call on the global record, with its trace. -/
def step (d : GstViewerData) : Call → GstViewerData × List Action
  | Call.init => Java_com_v3xctrl_viewer_GstViewer_nativeInit d
  | Call.start surface port o =>
    Java_com_v3xctrl_viewer_GstViewer_nativeStartPipeline d surface port o
  | Call.stop => Java_com_v3xctrl_viewer_GstViewer_nativeStopPipeline d
  | Call.finalize => Java_com_v3xctrl_viewer_GstViewer_nativeFinalize d

/-- The effect of a sequence of calls, one after the other. -/
def run (d : GstViewerData) : List Call → GstViewerData × List Action
  | [] => (d, [])
  | c :: cs => ((run (step d c).1 cs).1, (step d c).2 ++ (run (step d c).1 cs).2)

/-! ## Classes of actions -/

/-- A log statement. -/
def Action.isLog : Action → Bool
  | .log _ _ => true
  | _ => false

/-- A call that gives up a reference to a handle. -/
def Action.isRelease : Action → Bool
  | .gst_object_unref _ => true
  | .g_main_loop_unref _ => true
  | .ANativeWindow_release _ => true
  | _ => false

/-- A call on the event loop. -/
def Action.onLoop : Action → Bool
  | .g_main_loop_new => true
  | .g_main_loop_run _ => true
  | .g_main_loop_quit _ => true
  | .g_main_loop_unref _ => true
  | _ => false

/-- The call that initialises the framework. -/
def Action.isGstInit : Action → Bool
  | .gst_init => true
  | _ => false

/-- The call that starts the background thread. -/
def Action.isThreadStart : Action → Bool
  | .pthread_create_gst_main_loop_thread => true
  | _ => false

/-- Creation of the event loop, or start of the thread that runs it. -/
def Action.isLoopNewOrThreadStart : Action → Bool
  | .g_main_loop_new => true
  | .pthread_create_gst_main_loop_thread => true
  | _ => false

/-- Binding of a window handle to a sink, or a request to enter `PLAYING`. -/
def Action.isSetHandleOrPlay : Action → Bool
  | .gst_video_overlay_set_window_handle _ _ => true
  | .gst_element_set_state _ GstState.GST_STATE_PLAYING => true
  | _ => false

/-- Acquisition or release of a native window. -/
def Action.isWindowCall : Action → Bool
  | .ANativeWindow_fromSurface _ => true
  | .ANativeWindow_release _ => true
  | _ => false

/-- A call on the pipeline or on one of its elements. -/
def Action.onPipeline : Action → Bool
  | .gst_parse_launch _ => true
  | .gst_bin_get_by_name _ _ => true
  | .gst_video_overlay_set_window_handle _ _ => true
  | .gst_element_get_bus _ => true
  | .gst_element_set_state _ _ => true
  | .gst_object_unref _ => true
  | _ => false

/-- Decoding of a bus message, and freeing of what was decoded. -/
def Action.isMessageDecoding : Action → Bool
  | .gst_message_parse_error => true
  | .gst_message_parse_state_changed => true
  | .g_clear_error => true
  | .g_free => true
  | _ => false

/-- Neither a log statement nor the decoding of a message. -/
def Action.isOtherEffect (a : Action) : Bool :=
  !a.isLog && !a.isMessageDecoding

/-- The invariant the handles keep between calls. -/
def Coupled (d : GstViewerData) : Prop :=
  (d.pipeline ≠ 0 ↔ d.native_window ≠ 0) ∧ (d.pipeline ≠ 0 → d.initialized = true)

/-! ## Sample inputs -/

/-- The global record after a first `nativeInit`. -/
def ready : GstViewerData := { gst_data with initialized := true }

/-- A run of the framework in which every call succeeds. -/
def all_good : Outcomes :=
  { window := 11, parsed := 12, parse_error := none, sink := 13, bus := 14, loop := 15,
    ret := GstStateChangeReturn.GST_STATE_CHANGE_ASYNC, err_bus := 16, err_msg := none }

/-- A run in which the description does not parse. -/
def parse_fails : Outcomes :=
  { all_good with parsed := 0, parse_error := some "no element \"udpsrc\"" }

/-- A run in which the pipeline refuses to enter `PLAYING`. -/
def play_fails : Outcomes :=
  { all_good with ret := GstStateChangeReturn.GST_STATE_CHANGE_FAILURE,
                  err_msg := some ("Could not open resource", some "udpsrc bind failed") }

/-- A run in which the pipeline has no element named `videosink`. -/
def no_sink : Outcomes := { all_good with sink := 0 }

/-- The global record while a pipeline runs on port 5600. -/
def running : GstViewerData :=
  { pipeline := 12, video_sink := 13, main_loop := 15, native_window := 11,
    initialized := true, video_port := 5600 }

/-- A state-changed message posted by object 12. -/
def sample_msg : GstMessage :=
  { src := 12, err_message := "Internal data stream error", debug_info := some "reason not-linked",
    old_state := GstState.GST_STATE_READY, new_state := GstState.GST_STATE_PAUSED,
    pending_state := GstState.GST_STATE_PLAYING }

end GstViewer

namespace GstViewer

/-! ## Helper lemmas -/

set_option maxRecDepth 100000 in
theorem pipeline_str_zero :
    pipeline_str 0 =
      "videotestsrc pattern=smpte ! videoconvert ! glimagesink name=videosink" := by
  decide

set_option maxRecDepth 100000 in
theorem pipeline_str_nonzero (p : Int) (hp : p ≠ 0) :
    pipeline_str p = "udpsrc port=" ++ decimal p ++ " caps=\"application/x-rtp,media=video,encoding-name=H264,payload=96,clock-rate=90000\" ! rtpjitterbuffer latency=0 drop-on-latency=true ! rtph264depay ! h264parse ! avdec_h264 ! videoconvert ! glimagesink name=videosink sync=false" := by
  unfold pipeline_str
  rw [if_neg hp]
  rfl

theorem start_parse_launch_mem (d : GstViewerData) (surface : Nat) (port : Int)
    (o : Outcomes) (desc : String)
    (h : Action.gst_parse_launch desc ∈
      (Java_com_v3xctrl_viewer_GstViewer_nativeStartPipeline d surface port o).2) :
    desc = pipeline_str port := by
  unfold Java_com_v3xctrl_viewer_GstViewer_nativeStartPipeline at h
  simp only [LOGI, LOGE, LOGD] at h
  split_ifs at h <;> rcases hpe : o.parse_error with _ | m <;>
    rcases hem : o.err_msg with _ | ⟨m2, _ | dbg⟩ <;>
    simp [hpe, hem] at h <;> exact h

theorem start_get_by_name_mem (d : GstViewerData) (surface : Nat) (port : Int)
    (o : Outcomes) (bin : Nat) (name : String)
    (h : Action.gst_bin_get_by_name bin name ∈
      (Java_com_v3xctrl_viewer_GstViewer_nativeStartPipeline d surface port o).2) :
    name = "videosink" := by
  unfold Java_com_v3xctrl_viewer_GstViewer_nativeStartPipeline at h
  simp only [LOGI, LOGE, LOGD] at h
  split_ifs at h <;> rcases hpe : o.parse_error with _ | m <;>
    rcases hem : o.err_msg with _ | ⟨m2, _ | dbg⟩ <;>
    simp [hpe, hem] at h <;> exact h.2

theorem start_initialized (d : GstViewerData) (surface : Nat) (port : Int) (o : Outcomes) :
    (Java_com_v3xctrl_viewer_GstViewer_nativeStartPipeline d surface port o).1.initialized
      = d.initialized := by
  simp only [Java_com_v3xctrl_viewer_GstViewer_nativeStartPipeline]
  split_ifs <;> rfl

theorem start_count_gst_init (d : GstViewerData) (surface : Nat) (port : Int) (o : Outcomes) :
    (Java_com_v3xctrl_viewer_GstViewer_nativeStartPipeline d surface port o).2.countP
      Action.isGstInit = 0 := by
  unfold Java_com_v3xctrl_viewer_GstViewer_nativeStartPipeline
  simp only [LOGI, LOGE, LOGD]
  split_ifs <;> rcases hpe : o.parse_error with _ | m <;>
    rcases hem : o.err_msg with _ | ⟨m2, _ | dbg⟩ <;>
    simp [hpe, hem, List.countP_cons, Action.isGstInit]

theorem stop_state (d : GstViewerData) :
    (Java_com_v3xctrl_viewer_GstViewer_nativeStopPipeline d).1 =
      { pipeline := 0, video_sink := 0, main_loop := 0, native_window := 0,
        initialized := d.initialized, video_port := 0 } := by
  unfold Java_com_v3xctrl_viewer_GstViewer_nativeStopPipeline
  by_cases h1 : d.pipeline = 0 <;> by_cases h2 : d.video_sink = 0 <;>
    by_cases h3 : d.main_loop = 0 <;> by_cases h4 : d.native_window = 0 <;>
    simp [h1, h2, h3, h4]

theorem stop_releases (d : GstViewerData) :
    (Java_com_v3xctrl_viewer_GstViewer_nativeStopPipeline d).2.filter Action.isRelease =
      (if d.pipeline ≠ 0 then [Action.gst_object_unref d.pipeline] else []) ++
      (if d.video_sink ≠ 0 then [Action.gst_object_unref d.video_sink] else []) ++
      (if d.main_loop ≠ 0 then [Action.g_main_loop_unref d.main_loop] else []) ++
      (if d.native_window ≠ 0 then [Action.ANativeWindow_release d.native_window] else []) := by
  unfold Java_com_v3xctrl_viewer_GstViewer_nativeStopPipeline
  by_cases h1 : d.pipeline = 0 <;> by_cases h2 : d.video_sink = 0 <;>
    by_cases h3 : d.main_loop = 0 <;> by_cases h4 : d.native_window = 0 <;>
    simp [h1, h2, h3, h4, LOGI, Action.isRelease, List.filter_cons]

theorem stop_count_gst_init (d : GstViewerData) :
    (Java_com_v3xctrl_viewer_GstViewer_nativeStopPipeline d).2.countP Action.isGstInit = 0 := by
  unfold Java_com_v3xctrl_viewer_GstViewer_nativeStopPipeline
  by_cases h1 : d.pipeline = 0 <;> by_cases h2 : d.video_sink = 0 <;>
    by_cases h3 : d.main_loop = 0 <;> by_cases h4 : d.native_window = 0 <;>
    simp [h1, h2, h3, h4, LOGI, List.countP_cons, Action.isGstInit]

theorem finalize_state (d : GstViewerData) :
    (Java_com_v3xctrl_viewer_GstViewer_nativeFinalize d).1 = gst_data := by
  simp [Java_com_v3xctrl_viewer_GstViewer_nativeFinalize, stop_state, gst_data]

theorem init_state (d : GstViewerData) :
    (Java_com_v3xctrl_viewer_GstViewer_nativeInit d).1 = { d with initialized := true } := by
  unfold Java_com_v3xctrl_viewer_GstViewer_nativeInit
  split_ifs with h
  · cases d; simp_all
  · rfl

theorem run_no_init_from_zero (cs : List Call) (h : ∀ c ∈ cs, c ≠ Call.init) :
    (run gst_data cs).1 = gst_data := by
  induction cs with
  | nil => rfl
  | cons c cs ih =>
    have hc : c ≠ Call.init := h c (List.mem_cons_self _ _)
    have hcs : ∀ c ∈ cs, c ≠ Call.init := fun x hx => h x (List.mem_cons_of_mem _ hx)
    have hstep : (step gst_data c).1 = gst_data := by
      cases c with
      | init => exact absurd rfl hc
      | start surface port o => rfl
      | stop => simp [step, stop_state, gst_data]
      | finalize => simp [step, finalize_state]
    simp only [run, hstep]
    exact ih hcs

theorem step_initialized (d : GstViewerData) (c : Call) (hc : c ≠ Call.finalize)
    (hd : d.initialized = true) : (step d c).1.initialized = true := by
  cases c with
  | init => simp [step, init_state]
  | start surface port o => simp [step, start_initialized, hd]
  | stop => simp [step, stop_state, hd]
  | finalize => exact absurd rfl hc

theorem step_count_gst_init (d : GstViewerData) (c : Call) (hc : c ≠ Call.finalize) :
    (step d c).2.countP Action.isGstInit = if d.initialized = true ∨ c ≠ Call.init then 0 else 1 := by
  cases c with
  | init =>
    cases hd : d.initialized <;>
      simp [step, Java_com_v3xctrl_viewer_GstViewer_nativeInit, hd, LOGI, Action.isGstInit,
        List.countP_cons]
  | start surface port o => simp [step, start_count_gst_init]
  | stop => simp [step, stop_count_gst_init]
  | finalize => exact absurd rfl hc

theorem run_count_gst_init_of_initialized (cs : List Call) :
    ∀ d : GstViewerData, d.initialized = true → (∀ c ∈ cs, c ≠ Call.finalize) →
      (run d cs).2.countP Action.isGstInit = 0 := by
  induction cs with
  | nil => intro d _ _; rfl
  | cons c cs ih =>
    intro d hd h
    have hc : c ≠ Call.finalize := h c (List.mem_cons_self _ _)
    have hcs : ∀ c ∈ cs, c ≠ Call.finalize := fun x hx => h x (List.mem_cons_of_mem _ hx)
    simp only [run, List.countP_append, step_count_gst_init d c hc, hd,
      ih _ (step_initialized d c hc hd) hcs]
    simp

theorem run_count_gst_init (cs : List Call) :
    ∀ d : GstViewerData, (∀ c ∈ cs, c ≠ Call.finalize) →
      (run d cs).2.countP Action.isGstInit ≤ 1 := by
  induction cs with
  | nil => intro d _; simp [run]
  | cons c cs ih =>
    intro d h
    have hc : c ≠ Call.finalize := h c (List.mem_cons_self _ _)
    have hcs : ∀ c ∈ cs, c ≠ Call.finalize := fun x hx => h x (List.mem_cons_of_mem _ hx)
    simp only [run, List.countP_append, step_count_gst_init d c hc]
    by_cases hd : d.initialized = true
    · simp [hd, run_count_gst_init_of_initialized cs _ (step_initialized d c hc hd) hcs]
    · by_cases hi : c = Call.init
      · subst hi
        have h1 : (step d Call.init).1.initialized = true := by simp [step, init_state]
        simp [hd, run_count_gst_init_of_initialized cs _ h1 hcs]
      · have h0 : (if d.initialized = true ∨ c ≠ Call.init then 0 else 1) = 0 :=
          if_pos (Or.inr hi)
        rw [h0, zero_add]
        exact ih _ hcs

theorem start_coupled (d : GstViewerData) (surface : Nat) (port : Int) (o : Outcomes)
    (h : Coupled d) :
    Coupled (Java_com_v3xctrl_viewer_GstViewer_nativeStartPipeline d surface port o).1 := by
  simp only [Java_com_v3xctrl_viewer_GstViewer_nativeStartPipeline]
  by_cases hi : d.initialized = false
  · simpa [hi] using h
  by_cases hp : d.pipeline = 0
  swap
  · simpa [hi, hp] using h
  by_cases hw : o.window = 0
  · simp [hi, hp, hw, Coupled]
  by_cases hparse : o.parsed = 0
  · simp [hi, hp, hw, hparse, Coupled]
  by_cases hr : o.ret = GstStateChangeReturn.GST_STATE_CHANGE_FAILURE
  · simp [hi, hp, hw, hparse, hr, Coupled]
  · simp only [Bool.not_eq_false] at hi
    simp [hi, hp, hw, hparse, hr, Coupled]

theorem step_coupled (d : GstViewerData) (c : Call) (h : Coupled d) :
    Coupled (step d c).1 := by
  cases c with
  | init =>
    simp only [step, init_state]
    exact ⟨h.1, fun _ => rfl⟩
  | start surface port o => exact start_coupled d surface port o h
  | stop => simp [step, stop_state, Coupled]
  | finalize => simp [step, finalize_state, Coupled, gst_data]

theorem run_coupled (cs : List Call) :
    ∀ d : GstViewerData, Coupled d → Coupled (run d cs).1 := by
  induction cs with
  | nil => intro d h; exact h
  | cons c cs ih => intro d h; exact ih _ (step_coupled d c h)

/-! ## The pipeline description (C1) -/

/-- C1: whatever the state, the surface and the answers of the framework, a
description handed to `gst_parse_launch` by `nativeStartPipeline` is determined
by the port: the test pipeline for port 0, the RTP receiver pipeline with the
decimal port otherwise; it ends in a `glimagesink` element named `videosink`,
and `videosink` is the name every sink lookup of the run uses. -/
theorem pipeline_description_of_port (d : GstViewerData) (surface : Nat) (port : Int)
    (o : Outcomes) (desc : String)
    (h : Action.gst_parse_launch desc ∈
      (Java_com_v3xctrl_viewer_GstViewer_nativeStartPipeline d surface port o).2) :
    (port = 0 → desc =
      "videotestsrc pattern=smpte ! videoconvert ! glimagesink name=videosink") ∧
    (port ≠ 0 → desc = "udpsrc port=" ++ decimal port ++ " caps=\"application/x-rtp,media=video,encoding-name=H264,payload=96,clock-rate=90000\" ! rtpjitterbuffer latency=0 drop-on-latency=true ! rtph264depay ! h264parse ! avdec_h264 ! videoconvert ! glimagesink name=videosink sync=false") ∧
    (∃ front : String, desc = front ++ " ! glimagesink name=videosink" ∨
      desc = front ++ " ! glimagesink name=videosink sync=false") ∧
    (∀ bin name, Action.gst_bin_get_by_name bin name ∈
      (Java_com_v3xctrl_viewer_GstViewer_nativeStartPipeline d surface port o).2 →
      name = "videosink") := by
  have hd : desc = pipeline_str port := start_parse_launch_mem d surface port o desc h
  subst hd
  refine ⟨?_, ?_, ?_, ?_⟩
  · intro hp
    rw [hp]
    exact pipeline_str_zero
  · intro hp
    exact pipeline_str_nonzero port hp
  · by_cases hp : port = 0
    · refine ⟨"videotestsrc pattern=smpte ! videoconvert", Or.inl ?_⟩
      rw [hp, pipeline_str_zero]
      decide
    · refine ⟨"udpsrc port=" ++ decimal port ++ " caps=\"application/x-rtp,media=video,encoding-name=H264,payload=96,clock-rate=90000\" ! rtpjitterbuffer latency=0 drop-on-latency=true ! rtph264depay ! h264parse ! avdec_h264 ! videoconvert", Or.inr ?_⟩
      rw [pipeline_str_nonzero port hp, String.append_assoc, String.append_assoc,
        String.append_assoc]
      congr 2
  · intro bin name hm
    exact start_get_by_name_mem d surface port o bin name hm

set_option maxRecDepth 100000 in
/-- C1, at a concrete run: from `ready`, with every call succeeding, port 5600. -/
theorem pipeline_description_of_port_witness :
    Action.gst_parse_launch (pipeline_str 5600) ∈
      (Java_com_v3xctrl_viewer_GstViewer_nativeStartPipeline ready 7 5600 all_good).2 ∧
    pipeline_str 5600 = "udpsrc port=5600 caps=\"application/x-rtp,media=video,encoding-name=H264,payload=96,clock-rate=90000\" ! rtpjitterbuffer latency=0 drop-on-latency=true ! rtph264depay ! h264parse ! avdec_h264 ! videoconvert ! glimagesink name=videosink sync=false" :=
  ⟨by decide,
   (pipeline_description_of_port ready 7 5600 all_good (pipeline_str 5600) (by decide)).2.1
     (by decide)⟩

/-! ## The guards of start (C2) -/

/-- C2: when `initialized` is false or `pipeline` is non-null, `nativeStartPipeline`
returns the global record unchanged and its whole trace is one log statement,
for every surface, port and answer of the framework; so a start issued after a
start that left a pipeline running changes nothing and only logs. -/
theorem start_is_noop_when_guarded (d : GstViewerData) (surface : Nat) (port : Int)
    (o : Outcomes) (h : d.initialized = false ∨ d.pipeline ≠ 0) :
    Java_com_v3xctrl_viewer_GstViewer_nativeStartPipeline d surface port o =
      (d, [if d.initialized = false then LOGE "GStreamer not initialized" []
           else LOGI "Pipeline already running" []]) ∧
    (∀ a ∈ (Java_com_v3xctrl_viewer_GstViewer_nativeStartPipeline d surface port o).2,
      a.isLog = true) ∧
    (∀ (d0 : GstViewerData) (surface0 : Nat) (port0 : Int) (o0 : Outcomes),
      d = (Java_com_v3xctrl_viewer_GstViewer_nativeStartPipeline d0 surface0 port0 o0).1 →
      d.pipeline ≠ 0 →
      (Java_com_v3xctrl_viewer_GstViewer_nativeStartPipeline d surface port o).1.pipeline
        = (Java_com_v3xctrl_viewer_GstViewer_nativeStartPipeline d0 surface0 port0 o0).1.pipeline ∧
      (Java_com_v3xctrl_viewer_GstViewer_nativeStartPipeline d surface port o).1.video_port
        = (Java_com_v3xctrl_viewer_GstViewer_nativeStartPipeline d0 surface0 port0 o0).1.video_port) := by
  have key : Java_com_v3xctrl_viewer_GstViewer_nativeStartPipeline d surface port o =
      (d, [if d.initialized = false then LOGE "GStreamer not initialized" []
           else LOGI "Pipeline already running" []]) := by
    simp only [Java_com_v3xctrl_viewer_GstViewer_nativeStartPipeline]
    by_cases hi : d.initialized = false
    · simp [hi]
    · have hp : d.pipeline ≠ 0 := h.resolve_left hi
      simp [hi, hp]
  refine ⟨key, ?_, ?_⟩
  · intro a ha
    rw [key] at ha
    simp only [List.mem_singleton] at ha
    subst ha
    split_ifs <;> rfl
  · intro d0 surface0 port0 o0 hd _
    rw [key]
    exact ⟨congrArg GstViewerData.pipeline hd, congrArg GstViewerData.video_port hd⟩

set_option maxRecDepth 100000 in
/-- C2, at concrete runs: a start before any init, and a second start (another
surface, port 0) after a start that succeeded on port 5600. -/
theorem start_is_noop_when_guarded_witness :
    Java_com_v3xctrl_viewer_GstViewer_nativeStartPipeline gst_data 7 5600 all_good =
      (gst_data, [LOGE "GStreamer not initialized" []]) ∧
    (Java_com_v3xctrl_viewer_GstViewer_nativeStartPipeline ready 7 5600 all_good).1 = running ∧
    Java_com_v3xctrl_viewer_GstViewer_nativeStartPipeline running 8 0 parse_fails =
      (running, [LOGI "Pipeline already running" []]) :=
  ⟨(start_is_noop_when_guarded gst_data 7 5600 all_good (Or.inl rfl)).1,
   by decide,
   (start_is_noop_when_guarded running 8 0 parse_fails (Or.inr (by decide))).1⟩

/-! ## Stop (C3) -/

/-- C3: from any state `nativeStopPipeline` returns with the four handles null and
`video_port = 0`, and `initialized` as it was; the release calls of its trace
are, in order, one for each handle that was non-null and none for a null one;
a second stop returns the same state and makes no release call. -/
theorem stop_clears_handles_and_releases_once (d : GstViewerData) :
    (Java_com_v3xctrl_viewer_GstViewer_nativeStopPipeline d).1 =
      { pipeline := 0, video_sink := 0, main_loop := 0, native_window := 0,
        initialized := d.initialized, video_port := 0 } ∧
    (Java_com_v3xctrl_viewer_GstViewer_nativeStopPipeline d).2.filter Action.isRelease =
      (if d.pipeline ≠ 0 then [Action.gst_object_unref d.pipeline] else []) ++
      (if d.video_sink ≠ 0 then [Action.gst_object_unref d.video_sink] else []) ++
      (if d.main_loop ≠ 0 then [Action.g_main_loop_unref d.main_loop] else []) ++
      (if d.native_window ≠ 0 then [Action.ANativeWindow_release d.native_window] else []) ∧
    (Java_com_v3xctrl_viewer_GstViewer_nativeStopPipeline
      (Java_com_v3xctrl_viewer_GstViewer_nativeStopPipeline d).1).1 =
      (Java_com_v3xctrl_viewer_GstViewer_nativeStopPipeline d).1 ∧
    (Java_com_v3xctrl_viewer_GstViewer_nativeStopPipeline
      (Java_com_v3xctrl_viewer_GstViewer_nativeStopPipeline d).1).2.filter Action.isRelease
      = [] := by
  refine ⟨stop_state d, stop_releases d, ?_, ?_⟩
  · rw [stop_state, stop_state]
  · rw [stop_releases, stop_state]
    simp

set_option maxRecDepth 100000 in
/-- C3, at a concrete state: stopping the pipeline that runs on port 5600. -/
theorem stop_clears_handles_and_releases_once_witness :
    (Java_com_v3xctrl_viewer_GstViewer_nativeStopPipeline running).1 = ready ∧
    (Java_com_v3xctrl_viewer_GstViewer_nativeStopPipeline running).2.filter Action.isRelease =
      [Action.gst_object_unref 12, Action.gst_object_unref 13, Action.g_main_loop_unref 15,
       Action.ANativeWindow_release 11] :=
  ⟨(stop_clears_handles_and_releases_once running).1,
   (stop_clears_handles_and_releases_once running).2.1⟩

/-! ## Finalize (C4) -/

/-- C4: from any state `nativeFinalize` returns the all-zero initial record; and
after it, whatever calls other than `nativeInit` follow, the record stays
all-zero and every `nativeStartPipeline` returns it unchanged, having only
logged that the framework is not initialised. -/
theorem finalize_returns_to_initial_state (d : GstViewerData) :
    (Java_com_v3xctrl_viewer_GstViewer_nativeFinalize d).1 = gst_data ∧
    (∀ cs : List Call, (∀ c ∈ cs, c ≠ Call.init) →
      (run (Java_com_v3xctrl_viewer_GstViewer_nativeFinalize d).1 cs).1 = gst_data ∧
      ∀ (surface : Nat) (port : Int) (o : Outcomes),
        Java_com_v3xctrl_viewer_GstViewer_nativeStartPipeline
          (run (Java_com_v3xctrl_viewer_GstViewer_nativeFinalize d).1 cs).1 surface port o =
          (gst_data, [LOGE "GStreamer not initialized" []])) := by
  refine ⟨finalize_state d, ?_⟩
  intro cs hcs
  rw [finalize_state, run_no_init_from_zero cs hcs]
  exact ⟨rfl, fun _ _ _ => rfl⟩

set_option maxRecDepth 100000 in
/-- C4, at a concrete run: finalize while a pipeline runs, then a start, a stop
and another start, none of which leaves the all-zero record. -/
theorem finalize_returns_to_initial_state_witness :
    (Java_com_v3xctrl_viewer_GstViewer_nativeFinalize running).1 = gst_data ∧
    (run (Java_com_v3xctrl_viewer_GstViewer_nativeFinalize running).1
      [Call.start 7 5600 all_good, Call.stop, Call.start 8 0 all_good]).1 = gst_data :=
  ⟨(finalize_returns_to_initial_state running).1,
   ((finalize_returns_to_initial_state running).2
     [Call.start 7 5600 all_good, Call.stop, Call.start 8 0 all_good] (by decide)).1⟩

/-! ## Init (C5) -/

/-- C5: from any state `nativeInit` returns with `initialized = true` and the four
handles and the port as they were; a second init changes nothing more; when
`initialized` is already true the call only logs; in a sequence of calls with no
`nativeFinalize`, `gst_init` is called at most once; and `nativeFinalize`
leaves the handles and the port exactly as the `nativeStopPipeline` it calls
leaves them. -/
theorem init_sets_flag_only (d : GstViewerData) :
    (Java_com_v3xctrl_viewer_GstViewer_nativeInit d).1 = { d with initialized := true } ∧
    (Java_com_v3xctrl_viewer_GstViewer_nativeInit
      (Java_com_v3xctrl_viewer_GstViewer_nativeInit d).1).1 =
      (Java_com_v3xctrl_viewer_GstViewer_nativeInit d).1 ∧
    (d.initialized = true →
      Java_com_v3xctrl_viewer_GstViewer_nativeInit d =
        (d, [LOGI "GStreamer already initialized" []])) ∧
    (∀ cs : List Call, (∀ c ∈ cs, c ≠ Call.finalize) →
      (run d cs).2.countP Action.isGstInit ≤ 1) ∧
    (Java_com_v3xctrl_viewer_GstViewer_nativeFinalize d).1 =
      { (Java_com_v3xctrl_viewer_GstViewer_nativeStopPipeline d).1 with
        initialized := false } := by
  refine ⟨init_state d, ?_, ?_, ?_, rfl⟩
  · rw [init_state, init_state]
  · intro hd
    simp [Java_com_v3xctrl_viewer_GstViewer_nativeInit, hd]
  · intro cs hcs
    exact run_count_gst_init cs d hcs

set_option maxRecDepth 100000 in
/-- C5, at concrete runs: init while a pipeline runs only logs, and three inits
around a start and a stop call `gst_init` once. -/
theorem init_sets_flag_only_witness :
    Java_com_v3xctrl_viewer_GstViewer_nativeInit running =
      (running, [LOGI "GStreamer already initialized" []]) ∧
    (run gst_data [Call.init, Call.start 7 5600 all_good, Call.init, Call.stop,
      Call.init]).2.countP Action.isGstInit = 1 ∧
    (run gst_data [Call.init, Call.start 7 5600 all_good, Call.init, Call.stop,
      Call.init]).2.countP Action.isGstInit ≤ 1 :=
  ⟨(init_sets_flag_only running).2.2.1 rfl,
   by decide,
   (init_sets_flag_only gst_data).2.2.2.1
     [Call.init, Call.start 7 5600 all_good, Call.init, Call.stop, Call.init] (by decide)⟩

/-! ## Bus callbacks (C6) -/

/-- C6, as stated, fails: on an end-of-stream message and on an error message the
callback calls `g_main_loop_quit`, an action on the event loop that is no log
statement. -/
theorem callbacks_only_log_counterexample :
    (¬ ∀ a ∈ (on_eos running sample_msg).2, a.isLog = true ∧ a.onLoop = false) ∧
    (¬ ∀ a ∈ (on_error running sample_msg).2, a.onLoop = false) ∧
    Action.g_main_loop_quit 15 ∈ (on_eos running sample_msg).2 ∧
    Action.g_main_loop_quit 15 ∈ (on_error running sample_msg).2 := by
  refine ⟨?_, ?_, ?_, ?_⟩
  · intro h
    have := (h (Action.g_main_loop_quit 15) (by simp [on_eos, running])).1
    simp [Action.isLog] at this
  · intro h
    have := h (Action.g_main_loop_quit 15) (by simp [on_error, running])
    simp [Action.onLoop] at this
  · simp [on_eos, running]
  · simp [on_error, running]

/-- C6, amended: for every message and every state, no callback changes a field of
the global record and none acts on the pipeline; `on_state_changed`, the message
decoded, only logs (once when the pipeline posted the message, not at all
otherwise); `on_eos` logs and then quits the event loop; `on_error`, besides
logging and decoding, makes exactly one other call, `g_main_loop_quit` on
`main_loop`, and it is its last. -/
theorem callbacks_log_and_quit_loop (d : GstViewerData) (msg : GstMessage) :
    (on_error d msg).1 = d ∧ (on_eos d msg).1 = d ∧ (on_state_changed d msg).1 = d ∧
    (∀ a ∈ (on_error d msg).2 ++ (on_eos d msg).2 ++ (on_state_changed d msg).2,
      a.onPipeline = false) ∧
    (on_state_changed d msg).2.filter Action.isOtherEffect = [] ∧
    (∀ a ∈ (on_state_changed d msg).2, a.onLoop = false) ∧
    ((on_state_changed d msg).2.countP Action.isLog = if msg.src = d.pipeline then 1 else 0) ∧
    (on_eos d msg).2 = [LOGI "End of stream" [], Action.g_main_loop_quit d.main_loop] ∧
    (on_error d msg).2.filter Action.isOtherEffect = [Action.g_main_loop_quit d.main_loop] ∧
    (on_error d msg).2.getLast? = some (Action.g_main_loop_quit d.main_loop) := by
  refine ⟨rfl, rfl, rfl, ?_, ?_, ?_, ?_, rfl, ?_, ?_⟩
  · rcases hdbg : msg.debug_info with _ | dbg <;>
      by_cases hs : msg.src = d.pipeline <;>
      simp [on_error, on_eos, on_state_changed, hdbg, hs, LOGI, LOGE, LOGD,
        Action.onPipeline]
  · by_cases hs : msg.src = d.pipeline <;>
      simp [on_state_changed, hs, LOGI, Action.isOtherEffect, Action.isLog,
        Action.isMessageDecoding, List.filter_cons]
  · by_cases hs : msg.src = d.pipeline <;>
      simp [on_state_changed, hs, LOGI, Action.onLoop]
  · by_cases hs : msg.src = d.pipeline <;>
      simp [on_state_changed, hs, LOGI, Action.isLog, List.countP_cons]
  · rcases hdbg : msg.debug_info with _ | dbg <;>
      simp [on_error, hdbg, LOGE, LOGD, Action.isOtherEffect, Action.isLog,
        Action.isMessageDecoding, List.filter_cons]
  · rcases hdbg : msg.debug_info with _ | dbg <;>
      simp [on_error, hdbg, List.getLast?_append]

/-! ## Binding the surface to the sink (C7) -/

/-- C7: in a run of `nativeStartPipeline` that passes its guards, gets a non-null
window and a non-null pipeline, the window is asked of the given surface once;
when the sink is found, exactly one window handle is set, on that sink, it is
the window obtained (the value `native_window` holds when the run succeeds),
and it is set before the one request to enter `PLAYING`; when the sink is not
found no window handle is set, and the request to enter `PLAYING` is made all
the same. -/
theorem surface_window_bound_to_sink (d : GstViewerData) (surface : Nat) (port : Int)
    (o : Outcomes) (hi : d.initialized = true) (hp : d.pipeline = 0)
    (hw : o.window ≠ 0) (hparse : o.parsed ≠ 0) :
    (Java_com_v3xctrl_viewer_GstViewer_nativeStartPipeline d surface port o).2.head? =
      some (Action.ANativeWindow_fromSurface surface) ∧
    (Java_com_v3xctrl_viewer_GstViewer_nativeStartPipeline d surface port o).2.filter
      Action.isSetHandleOrPlay =
      (if o.sink ≠ 0 then [Action.gst_video_overlay_set_window_handle o.sink o.window]
       else []) ++
      [Action.gst_element_set_state o.parsed GstState.GST_STATE_PLAYING] ∧
    (Java_com_v3xctrl_viewer_GstViewer_nativeStartPipeline d surface port o).1.video_sink =
      o.sink ∧
    (o.ret ≠ GstStateChangeReturn.GST_STATE_CHANGE_FAILURE →
      (Java_com_v3xctrl_viewer_GstViewer_nativeStartPipeline d surface port o).1.native_window
        = o.window ∧
      (Java_com_v3xctrl_viewer_GstViewer_nativeStartPipeline d surface port o).1.pipeline
        = o.parsed) := by
  simp only [Java_com_v3xctrl_viewer_GstViewer_nativeStartPipeline, LOGI, LOGE, LOGD]
  by_cases hs : o.sink = 0 <;>
    by_cases hr : o.ret = GstStateChangeReturn.GST_STATE_CHANGE_FAILURE <;>
    rcases hpe : o.parse_error with _ | m <;>
    rcases hem : o.err_msg with _ | ⟨m2, _ | dbg⟩ <;>
    simp [hi, hp, hw, hparse, hs, hr, hpe, hem, Action.isSetHandleOrPlay, List.filter_cons]

set_option maxRecDepth 100000 in
/-- C7, at concrete runs: with a sink the handle set is window 11 on sink 13, then
`PLAYING`; without a sink only `PLAYING` is requested. -/
theorem surface_window_bound_to_sink_witness :
    (Java_com_v3xctrl_viewer_GstViewer_nativeStartPipeline ready 7 5600 all_good).2.filter
      Action.isSetHandleOrPlay =
      [Action.gst_video_overlay_set_window_handle 13 11,
       Action.gst_element_set_state 12 GstState.GST_STATE_PLAYING] ∧
    (Java_com_v3xctrl_viewer_GstViewer_nativeStartPipeline ready 7 5600 no_sink).2.filter
      Action.isSetHandleOrPlay =
      [Action.gst_element_set_state 12 GstState.GST_STATE_PLAYING] :=
  ⟨(surface_window_bound_to_sink ready 7 5600 all_good rfl rfl (by decide) (by decide)).2.1,
   (surface_window_bound_to_sink ready 7 5600 no_sink rfl rfl (by decide) (by decide)).2.1⟩

/-! ## The event-loop thread (C8) -/

/-- C8: a call of `nativeStartPipeline` starts the background thread exactly once
when it returns with `pipeline` non-null after entering with `pipeline` null,
that is after parsing the pipeline itself, and not at all otherwise; when it
starts it, the loop was created first and is the one stored in `main_loop`, the
one the thread body runs; each of the five early returns starts no thread. -/
theorem thread_started_iff_start_succeeds (d : GstViewerData) (surface : Nat) (port : Int)
    (o : Outcomes) :
    ((Java_com_v3xctrl_viewer_GstViewer_nativeStartPipeline d surface port o).2.countP
        Action.isThreadStart =
      if d.pipeline = 0 ∧
        (Java_com_v3xctrl_viewer_GstViewer_nativeStartPipeline d surface port o).1.pipeline ≠ 0
      then 1 else 0) ∧
    ((d.pipeline = 0 ∧
        (Java_com_v3xctrl_viewer_GstViewer_nativeStartPipeline d surface port o).1.pipeline ≠ 0) ↔
      (Action.gst_parse_launch (pipeline_str port) ∈
        (Java_com_v3xctrl_viewer_GstViewer_nativeStartPipeline d surface port o).2 ∧
        (Java_com_v3xctrl_viewer_GstViewer_nativeStartPipeline d surface port o).1.pipeline ≠ 0)) ∧
    ((d.pipeline = 0 ∧
        (Java_com_v3xctrl_viewer_GstViewer_nativeStartPipeline d surface port o).1.pipeline ≠ 0) →
      (Java_com_v3xctrl_viewer_GstViewer_nativeStartPipeline d surface port o).2.filter
        Action.isLoopNewOrThreadStart =
        [Action.g_main_loop_new, Action.pthread_create_gst_main_loop_thread] ∧
      (Java_com_v3xctrl_viewer_GstViewer_nativeStartPipeline d surface port o).1.main_loop
        = o.loop ∧
      (gst_main_loop_thread
        (Java_com_v3xctrl_viewer_GstViewer_nativeStartPipeline d surface port o).1).2 =
        [LOGI "Starting GStreamer main loop" [], Action.g_main_loop_run o.loop,
         LOGI "GStreamer main loop ended" []]) ∧
    ((d.initialized = false ∨ d.pipeline ≠ 0 ∨ o.window = 0 ∨ o.parsed = 0 ∨
        o.ret = GstStateChangeReturn.GST_STATE_CHANGE_FAILURE) →
      (Java_com_v3xctrl_viewer_GstViewer_nativeStartPipeline d surface port o).2.countP
        Action.isThreadStart = 0) := by
  simp only [Java_com_v3xctrl_viewer_GstViewer_nativeStartPipeline, gst_main_loop_thread,
    LOGI, LOGE, LOGD]
  by_cases hi : d.initialized = false
  · simp [hi, Action.isThreadStart, List.countP_cons]
  by_cases hp : d.pipeline = 0
  swap
  · simp [hi, hp, Action.isThreadStart, List.countP_cons]
  by_cases hw : o.window = 0
  · simp [hi, hp, hw, Action.isThreadStart, List.countP_cons]
  by_cases hparse : o.parsed = 0
  · rcases hpe : o.parse_error with _ | m <;>
      simp [hi, hp, hw, hparse, hpe, Action.isThreadStart, List.countP_cons]
  by_cases hr : o.ret = GstStateChangeReturn.GST_STATE_CHANGE_FAILURE
  · by_cases hs : o.sink = 0 <;>
      rcases hpe : o.parse_error with _ | m <;>
      rcases hem : o.err_msg with _ | ⟨m2, _ | dbg⟩ <;>
      simp [hi, hp, hw, hparse, hs, hr, hpe, hem, Action.isThreadStart, List.countP_cons]
  · by_cases hs : o.sink = 0 <;>
      rcases hpe : o.parse_error with _ | m <;>
      simp [hi, hp, hw, hparse, hs, hr, hpe, Action.isThreadStart,
        Action.isLoopNewOrThreadStart, List.filter_cons, List.countP_cons]

set_option maxRecDepth 100000 in
/-- C8, at concrete runs: the start that succeeds creates the loop and then one
thread; the start whose state change fails starts none. -/
theorem thread_started_iff_start_succeeds_witness :
    (Java_com_v3xctrl_viewer_GstViewer_nativeStartPipeline ready 7 5600 all_good).2.filter
      Action.isLoopNewOrThreadStart =
      [Action.g_main_loop_new, Action.pthread_create_gst_main_loop_thread] ∧
    (Java_com_v3xctrl_viewer_GstViewer_nativeStartPipeline ready 7 5600 play_fails).2.countP
      Action.isThreadStart = 0 :=
  ⟨((thread_started_iff_start_succeeds ready 7 5600 all_good).2.2.1
      ⟨rfl, by decide⟩).1,
   (thread_started_iff_start_succeeds ready 7 5600 play_fails).2.2.2
     (Or.inr (Or.inr (Or.inr (Or.inr rfl))))⟩

/-! ## What a failed start leaves behind (C9) -/

set_option maxRecDepth 100000 in
/-- C9 does not hold of the code: after `nativeInit` and a `nativeStartPipeline` on
port 5600 whose state change fails, `pipeline` is null while `video_sink`,
`main_loop` and `video_port` are not; and after a start whose description does
not parse, `pipeline` is null while `video_port` is 5600. The failed start
releases the bus, the error bus, the pipeline and the window, not the sink nor
the loop; a `nativeStopPipeline` issued next releases them, but a second start
issued instead overwrites both fields and releases only its bus. -/
theorem failed_start_leaves_sink_loop_port :
    (run gst_data [Call.init, Call.start 7 5600 play_fails]).1 =
      { pipeline := 0, video_sink := 13, main_loop := 15, native_window := 0,
        initialized := true, video_port := 5600 } ∧
    (run gst_data [Call.init, Call.start 7 5600 parse_fails]).1 =
      { pipeline := 0, video_sink := 0, main_loop := 0, native_window := 0,
        initialized := true, video_port := 5600 } ∧
    (run gst_data [Call.init, Call.start 7 5600 play_fails]).2.filter Action.isRelease =
      [Action.gst_object_unref 14, Action.gst_object_unref 16, Action.gst_object_unref 12,
       Action.ANativeWindow_release 11] ∧
    (run gst_data [Call.init, Call.start 7 5600 play_fails, Call.stop]).1 = ready ∧
    (run gst_data [Call.init, Call.start 7 5600 play_fails, Call.stop]).2.filter
      Action.isRelease =
      [Action.gst_object_unref 14, Action.gst_object_unref 16, Action.gst_object_unref 12,
       Action.ANativeWindow_release 11, Action.gst_object_unref 13,
       Action.g_main_loop_unref 15] ∧
    (Java_com_v3xctrl_viewer_GstViewer_nativeStartPipeline
      (run gst_data [Call.init, Call.start 7 5600 play_fails]).1 8 5600
      { all_good with sink := 23, loop := 25 }).1 =
      { pipeline := 12, video_sink := 23, main_loop := 25, native_window := 11,
        initialized := true, video_port := 5600 } ∧
    (Java_com_v3xctrl_viewer_GstViewer_nativeStartPipeline
      (run gst_data [Call.init, Call.start 7 5600 play_fails]).1 8 5600
      { all_good with sink := 23, loop := 25 }).2.filter Action.isRelease =
      [Action.gst_object_unref 14] := by
  decide

/-! ## Pipeline and window (C10) -/

/-- C10: after any sequence of calls of the four entry points from the all-zero
record, whatever the framework answered, `pipeline` is non-null exactly when
`native_window` is, and then `initialized` is true; and a start from such a
state that acquires a window and then fails, at the parse or at the state
change, makes exactly one window release after the acquisition, of the window
acquired, and returns with `native_window` and `pipeline` null. -/
theorem pipeline_and_window_coupled (cs : List Call) :
    ((run gst_data cs).1.pipeline ≠ 0 ↔ (run gst_data cs).1.native_window ≠ 0) ∧
    ((run gst_data cs).1.pipeline ≠ 0 → (run gst_data cs).1.initialized = true) ∧
    (∀ (surface : Nat) (port : Int) (o : Outcomes),
      (run gst_data cs).1.initialized = true → (run gst_data cs).1.pipeline = 0 →
      o.window ≠ 0 →
      (o.parsed = 0 ∨ o.ret = GstStateChangeReturn.GST_STATE_CHANGE_FAILURE) →
      (Java_com_v3xctrl_viewer_GstViewer_nativeStartPipeline (run gst_data cs).1
        surface port o).2.filter Action.isWindowCall =
        [Action.ANativeWindow_fromSurface surface, Action.ANativeWindow_release o.window] ∧
      (Java_com_v3xctrl_viewer_GstViewer_nativeStartPipeline (run gst_data cs).1
        surface port o).1.native_window = 0 ∧
      (Java_com_v3xctrl_viewer_GstViewer_nativeStartPipeline (run gst_data cs).1
        surface port o).1.pipeline = 0) := by
  have hc : Coupled (run gst_data cs).1 :=
    run_coupled cs gst_data ⟨by simp [gst_data], by simp [gst_data]⟩
  refine ⟨hc.1, hc.2, ?_⟩
  intro surface port o hi hp hw hfail
  generalize (run gst_data cs).1 = d at hi hp
  simp only [Java_com_v3xctrl_viewer_GstViewer_nativeStartPipeline, LOGI, LOGE, LOGD]
  by_cases hparse : o.parsed = 0
  · rcases hpe : o.parse_error with _ | m <;>
      simp [hi, hp, hw, hparse, hpe, Action.isWindowCall, List.filter_cons]
  · have hr : o.ret = GstStateChangeReturn.GST_STATE_CHANGE_FAILURE :=
      hfail.resolve_left hparse
    by_cases hs : o.sink = 0 <;>
      rcases hpe : o.parse_error with _ | m <;>
      rcases hem : o.err_msg with _ | ⟨m2, _ | dbg⟩ <;>
      simp [hi, hp, hw, hparse, hs, hr, hpe, hem, Action.isWindowCall, List.filter_cons]

set_option maxRecDepth 100000 in
/-- C10, at a concrete run: init, a start that succeeds, a stop, then a start whose
state change fails releases window 11 once. -/
theorem pipeline_and_window_coupled_witness :
    (run gst_data [Call.init, Call.start 7 5600 all_good, Call.stop]).1 = ready ∧
    (Java_com_v3xctrl_viewer_GstViewer_nativeStartPipeline
      (run gst_data [Call.init, Call.start 7 5600 all_good, Call.stop]).1
      8 5601 play_fails).2.filter Action.isWindowCall =
      [Action.ANativeWindow_fromSurface 8, Action.ANativeWindow_release 11] :=
  ⟨by decide,
   ((pipeline_and_window_coupled [Call.init, Call.start 7 5600 all_good, Call.stop]).2.2
      8 5601 play_fails (by decide) (by decide) (by decide) (Or.inr rfl)).1⟩

end GstViewer
